import Mathlib

set_option autoImplicit false

/-
Shallow embedding of the offline-first sync engine of the Expenses-Wallet
backend.  The modelled code is the service wired into the running app:
`src/app/services/sync.service.ts` (imported by `src/app/controllers/
sync.controller.ts`, which the sync router mounts), together with
the `forceSync` handler of the controller, the mongoose schemas of
`src/app/models/sync.model.ts` and the entity models, and the error
classes / error-handler middleware.

Modelling conventions:
- Timestamps are naturals (milliseconds since the epoch); every `new Date()`
  read inside one service call is modelled as the single instant `now`
  passed to the function.
- MongoDB ObjectIds and user ids are naturals.  A per-collection document
  store is modelled as one list of records tagged with their entity type,
  plus a counter supplying the fresh id that `new Model(...)` obtains when
  no `_id` is given.
- The entity-specific data fields (title, amount, ...) are abstracted into
  a single `payload : Nat`; `Schema.Types.Mixed` values are likewise `Nat`.
- `updateOne` updates the first matching document and is a no-op when
  nothing matches; a plain (non-`$`) update object is applied as a `$set`
  of exactly its keys, which is how mongoose behaves.
- Fallible code returns `Except`; JavaScript `Error` objects and the
  `AppError` hierarchy of `src/app/shared/errors.ts` are the two
  constructors of `ThrownError`.
-/

namespace ExpensesWallet

/-- Entity types the `switch (_entityType)` of the service dispatches on.
The TS union also names `user`, but the service fetches and pushes only
the `expense` and `category` collections, so only those occur here. -/
inductive EntityType where
  | expense
  | category
deriving DecidableEq, Repr

/-- The `_syncStatus` enumeration of the mongoose schemas. -/
inductive SyncStatus where
  | synced
  | pending
  | conflict
  | error
  | offline
deriving DecidableEq, Repr

/-- A stored document of the `expense` / `category` collections.  The
schemas default `_version` to 1, `_lastModified` to `Date.now`,
`_isDeleted` to false and `_syncStatus` to a value of the enum, so a
stored document always carries these fields; `_clientId` and
`_conflictData` are optional.  `payload` abstracts the entity-specific
data fields, `conflictData` the `Schema.Types.Mixed` snapshot. -/
structure StoredRecord where
  id : Nat
  owner : Nat
  etype : EntityType
  payload : Nat
  version : Nat
  lastModified : Nat
  syncStatus : SyncStatus
  isDeleted : Bool
  clientId : Option Nat
  conflictData : Option Nat
deriving DecidableEq, Repr

/-- An entity as sent by the client in a push body.  `_version` may be
absent (the code reads `incoming._version || 0`), `_isDeleted` absent is
the same as false, and `payload` abstracts the remaining data fields. -/
structure IncomingEntity where
  etype : EntityType
  id : Nat
  clientId : Option Nat
  version : Option Nat
  lastModified : Nat
  isDeleted : Bool
  payload : Nat
deriving DecidableEq, Repr

/-- The record store: the syncable collections in one list (each record
tags its collection via `etype`), plus the counter from which a fresh
`_id` is drawn when a document is created without one. -/
structure Store where
  records : List StoredRecord
  nextId : Nat
deriving DecidableEq, Repr

/-- The `{ _id, user }` filter used by `findOne` / `updateOne`, restricted
to the collection chosen by the entity-type switch. -/
def recMatches (t : EntityType) (id owner : Nat) (r : StoredRecord) : Bool :=
  decide (r.etype = t ∧ r.id = id ∧ r.owner = owner)

/-- `Model.findOne({ _id, user })`: first matching document, if any. -/
def findOne (s : Store) (t : EntityType) (id owner : Nat) : Option StoredRecord :=
  s.records.find? (recMatches t id owner)

/-- `updateOne` semantics: rewrite the first element satisfying `p` with
`f`, leave everything else (and a match-free list) unchanged. -/
def updateFirst {α : Type} (p : α → Bool) (f : α → α) : List α → List α
  | [] => []
  | a :: l => if p a then f a :: l else a :: updateFirst p f l

/-- The conflict predicate of `SyncService.hasConflict`:
`existingTime > incomingTime && existing._version > (incoming._version || 0)`.
The stored side always has `_lastModified` (schema default), so the
`existing._lastModified || existing.updatedAt` fallback never fires. -/
def hasConflict (existing : StoredRecord) (incoming : IncomingEntity) : Bool :=
  decide (existing.lastModified > incoming.lastModified ∧
          existing.version > incoming.version.getD 0)

/-- The `...entityData` rest object left after destructuring
`{ _entityType, _id, _clientId, _version, _lastModified, ...entityData }`:
the data fields plus `_isDeleted`, which this service does not strip. -/
structure EntityData where
  payload : Nat
  isDeleted : Bool
deriving DecidableEq, Repr

/-- Destructuring of an incoming entity into its rest object. -/
def entityData (e : IncomingEntity) : EntityData :=
  { payload := e.payload, isDeleted := e.isDeleted }

/-- `SyncService.handleCreate`: `new Model({...data, user, _clientId,
_syncStatus: synced, _lastModified: now, _version: 1})` followed by
`save()`.  No `_id` is supplied (it was destructured away), so the store
assigns the fresh id `s.nextId`. -/
def handleCreate (now : Nat) (t : EntityType) (data : EntityData) (owner : Nat)
    (clientId : Option Nat) (s : Store) : Store :=
  { records := s.records ++ [{
      id := s.nextId
      owner := owner
      etype := t
      payload := data.payload
      version := 1
      lastModified := now
      syncStatus := SyncStatus.synced
      isDeleted := data.isDeleted
      clientId := clientId
      conflictData := none }]
    nextId := s.nextId + 1 }

/-- `SyncService.handleUpdate`: `updateOne({_id, user}, {...data,
_syncStatus: synced, _lastModified: now, _version: (version || 0) + 1})`,
where `version` is the `_version` of the incoming entity. -/
def handleUpdate (now : Nat) (t : EntityType) (id owner : Nat) (data : EntityData)
    (version : Option Nat) (s : Store) : Store :=
  let upd : StoredRecord → StoredRecord := fun r =>
    { r with
      payload := data.payload
      isDeleted := data.isDeleted
      syncStatus := SyncStatus.synced
      lastModified := now
      version := version.getD 0 + 1 }
  { s with records := updateFirst (recMatches t id owner) upd s.records }

/-- `SyncService.handleDelete`: `updateOne({_id, user}, {_isDeleted: true,
_syncStatus: synced, _lastModified: now})` - a `$set` of exactly those
three fields, a no-op when no document matches. -/
def handleDelete (now : Nat) (t : EntityType) (id owner : Nat) (s : Store) : Store :=
  let upd : StoredRecord → StoredRecord := fun r =>
    { r with
      isDeleted := true
      syncStatus := SyncStatus.synced
      lastModified := now }
  { s with records := updateFirst (recMatches t id owner) upd s.records }

/-- The entity object handed back by `processEntity`: on conflict it is
`{ ...entity, _conflictData: existingEntity }`, otherwise the entity
unchanged. -/
structure ReturnedEntity where
  base : IncomingEntity
  conflictData : Option StoredRecord
deriving DecidableEq, Repr

/-- Result of `SyncService.processEntity` for one entity. -/
structure ProcessResult where
  conflict : Bool
  entity : ReturnedEntity
deriving DecidableEq, Repr

/-- `SyncService.processEntity`: look up `(id, user)` in
the collection of its entity type; report a conflict (mutating nothing) when an existing
record wins `hasConflict`; otherwise soft-delete, update or create. -/
def processEntity (now owner : Nat) (e : IncomingEntity) (s : Store) :
    Store × ProcessResult :=
  match findOne s e.etype e.id owner with
  | some existing =>
    if hasConflict existing e then
      (s, { conflict := true, entity := { base := e, conflictData := some existing } })
    else if e.isDeleted then
      (handleDelete now e.etype e.id owner s,
       { conflict := false, entity := { base := e, conflictData := none } })
    else
      (handleUpdate now e.etype e.id owner (entityData e) e.version s,
       { conflict := false, entity := { base := e, conflictData := none } })
  | none =>
    if e.isDeleted then
      (handleDelete now e.etype e.id owner s,
       { conflict := false, entity := { base := e, conflictData := none } })
    else
      (handleCreate now e.etype (entityData e) owner e.clientId s,
       { conflict := false, entity := { base := e, conflictData := none } })

/-- Result of `SyncService.pushData`. -/
structure PushResponse where
  success : Bool
  conflicts : List ReturnedEntity
deriving DecidableEq, Repr

/-- `SyncService.pushData`: process the batch strictly in order, threading
the store; collect the returned entity of every conflicted item. -/
def pushData (now owner : Nat) (entities : List IncomingEntity) (s : Store) :
    Store × PushResponse :=
  let res := entities.foldl
    (fun (acc : Store × List ReturnedEntity) (e : IncomingEntity) =>
      let step := processEntity now owner e acc.1
      (step.1, if step.2.conflict then acc.2 ++ [step.2.entity] else acc.2))
    (s, [])
  (res.1, { success := true, conflicts := res.2 })

/- ===== errors (shared/errors.ts, middleware/error-handler.ts) ===== -/

/-- An error value flowing to the error-handling middleware: either a plain
`new Error(message)` or an instance of the `AppError` hierarchy of
`src/app/shared/errors.ts`, which carries an HTTP status code and an error
code string. -/
inductive ThrownError where
  | plain (msg : String)
  | app (statusCode : Nat) (code : String) (msg : String)
deriving DecidableEq, Repr

/-- The `NotFoundError` class of `shared/errors.ts`: an `AppError` with
status 404 and code `NOT_FOUND`. -/
def isNotFoundError : ThrownError → Bool
  | ThrownError.app 404 "NOT_FOUND" _ => true
  | _ => false

/-- The `errorHandler` middleware of `middleware/error-handler.ts` that the
app installs last: it answers `sendError(res, err.message, 500)` for every
error, ignoring any status carried by the error. -/
def errorHandlerStatus (_e : ThrownError) : Nat := 500

/- ===== pull (SyncService.pullData) ===== -/

/-- The argument object of `pullData` with its defaults
(`limit = 50`, `offset = 0`).  `entityType = none` means no filter; the
`user` filter value of the TS union fetches nothing and is omitted. -/
structure SyncRequest where
  lastSyncTime : Option Nat := none
  entityType : Option EntityType := none
  limit : Nat := 50
  offset : Nat := 0
deriving DecidableEq, Repr

/-- The mongo query built by `pullData`: `{ user }` plus, when a cursor is
given, `_lastModified: { $gt: lastSyncTime }`.  Deliberately no
`_isDeleted` condition (source comment: deleted items must sync too). -/
def matchesPull (owner : Nat) (cursor : Option Nat) (r : StoredRecord) : Bool :=
  decide (r.owner = owner) &&
    (match cursor with
     | some t => decide (t < r.lastModified)
     | none => true)

/-- Insert into a list kept sorted by `key` descending. -/
def insertDescBy {α : Type} (key : α → Nat) (a : α) : List α → List α
  | [] => [a]
  | b :: l => if key b < key a then a :: b :: l else b :: insertDescBy key a l

/-- Sorting by `key` descending, modelling `.sort({ key: -1 })`. -/
def sortDescBy {α : Type} (key : α → Nat) : List α → List α
  | [] => []
  | a :: l => insertDescBy key a (sortDescBy key l)

/-- The documents of collection `t` matching the pull query. -/
def typeFilter (owner : Nat) (cursor : Option Nat) (t : EntityType) (s : Store) :
    List StoredRecord :=
  s.records.filter (fun r => decide (r.etype = t) && matchesPull owner cursor r)

/-- The page of one collection:
`find(query).sort({_lastModified: -1}).limit(limit).skip(offset)` -
sort, then skip `offset`, then return at most `limit` documents. -/
def typePage (owner : Nat) (cursor : Option Nat) (limit offset : Nat) (t : EntityType)
    (s : Store) : List StoredRecord :=
  ((sortDescBy (fun r => r.lastModified) (typeFilter owner cursor t s)).drop offset).take limit

/-- `Model.countDocuments(query)` for collection `t`. -/
def typeCount (owner : Nat) (cursor : Option Nat) (t : EntityType) (s : Store) : Nat :=
  (typeFilter owner cursor t s).length

/-- Whether `pullData` queries collection `t`, per the two
`if (!entityType || entityType === ...)` guards. -/
def includeType (filter : Option EntityType) (t : EntityType) : Bool :=
  match filter with
  | none => true
  | some t2 => decide (t2 = t)

/- ===== conflict audit log (ConflictResolution model) ===== -/

/-- The `resolution` enum of the conflict log; the constructors stand for
the strings `local`, `server` and `merge`. -/
inductive Resolution where
  | localRes
  | serverRes
  | mergeRes
deriving DecidableEq, Repr

/-- A document of the `ConflictResolution` collection (the audit log):
`localData` is `entity.toObject()` at resolution time, `serverData` the
`_conflictData` Mixed snapshot, `timestamp` defaults to `Date.now`. -/
structure ConflictRecord where
  entityId : Nat
  entityType : EntityType
  localData : StoredRecord
  serverData : Option Nat
  resolution : Resolution
  mergedData : Option Nat
  timestamp : Nat
  user : Nat
deriving DecidableEq, Repr

/-- `SyncService.getConflicts`: the audit entries of the user sorted by
`timestamp` descending (store errors are swallowed to `[]`, which the pure
model does not exhibit). -/
def getConflicts (userId : Nat) (log : List ConflictRecord) : List ConflictRecord :=
  sortDescBy (fun c => c.timestamp) (log.filter (fun c => decide (c.user = userId)))

/- ===== sync metadata (SyncMetadata model) ===== -/

/-- One `SyncMetadata` document (unique per user).  Schema defaults:
`lastSyncTime = Date.now`, counters 0, `isOnline = true`,
`isSyncing = false`. -/
structure SyncMeta where
  user : Nat
  lastSyncTime : Nat
  totalEntities : Nat
  pendingCount : Nat
  conflictCount : Nat
  errorCount : Nat
  isOnline : Bool
  isSyncing : Bool
deriving DecidableEq, Repr

/-- A `Partial` update object passed to `updateSyncMetadata`; absent keys
leave the stored value untouched. -/
structure MetaUpdates where
  lastSyncTime : Option Nat := none
  totalEntities : Option Nat := none
  pendingCount : Option Nat := none
  conflictCount : Option Nat := none
  errorCount : Option Nat := none
  isOnline : Option Bool := none
  isSyncing : Option Bool := none
deriving DecidableEq, Repr

/-- Apply a partial update to an existing metadata document (`$set` of the
present keys). -/
def applyMetaUpdates (upd : MetaUpdates) (m : SyncMeta) : SyncMeta :=
  { m with
    lastSyncTime := upd.lastSyncTime.getD m.lastSyncTime
    totalEntities := upd.totalEntities.getD m.totalEntities
    pendingCount := upd.pendingCount.getD m.pendingCount
    conflictCount := upd.conflictCount.getD m.conflictCount
    errorCount := upd.errorCount.getD m.errorCount
    isOnline := upd.isOnline.getD m.isOnline
    isSyncing := upd.isSyncing.getD m.isSyncing }

/-- The document inserted by an upsert when no metadata document matches:
the `user` equality of the query, the `$set` keys, and schema defaults for the
rest (`lastSyncTime` defaults to the current time). -/
def insertMeta (now userId : Nat) (upd : MetaUpdates) : SyncMeta :=
  { user := userId
    lastSyncTime := upd.lastSyncTime.getD now
    totalEntities := upd.totalEntities.getD 0
    pendingCount := upd.pendingCount.getD 0
    conflictCount := upd.conflictCount.getD 0
    errorCount := upd.errorCount.getD 0
    isOnline := upd.isOnline.getD true
    isSyncing := upd.isSyncing.getD false }

/-- `SyncService.updateSyncMetadata`:
`SyncMetadata.updateOne({user}, {...updates, updatedAt: now}, {upsert: true})`. -/
def updateSyncMetadata (now userId : Nat) (upd : MetaUpdates) (ms : List SyncMeta) :
    List SyncMeta :=
  match ms.find? (fun m => decide (m.user = userId)) with
  | some _ => updateFirst (fun m => decide (m.user = userId)) (applyMetaUpdates upd) ms
  | none => ms ++ [insertMeta now userId upd]

/-- `SyncMetadata.findOne({user})`. -/
def findMeta (ms : List SyncMeta) (userId : Nat) : Option SyncMeta :=
  ms.find? (fun m => decide (m.user = userId))

/- ===== pullData ===== -/

/-- The response object assembled by `pullData`. -/
structure SyncResponse where
  entities : List StoredRecord
  conflicts : List ConflictRecord
  lastSyncTime : Nat
  hasMore : Bool
  totalCount : Nat
deriving DecidableEq, Repr

/-- `SyncService.pullData`.  For each collection in scope it pages the
records of the owner changed after the cursor (deleted ones included),
concatenates the pages, loads the conflict audit log, refreshes the sync
metadata inside its own try/catch (a failure there - the `metaFails`
flag - is logged and swallowed), and returns the concatenation re-sorted
by `_lastModified` descending.  `hasMore` compares the concatenated
length with `limit`.  A missing `userId` (or any other internal error)
is caught by the outer catch and rethrown as a plain
`Failed to pull sync data` error. -/
def pullData (now : Nat) (userId : Option Nat) (req : SyncRequest) (s : Store)
    (log : List ConflictRecord) (ms : List SyncMeta) (metaFails : Bool) :
    Except ThrownError (List SyncMeta × SyncResponse) :=
  match userId with
  | none => Except.error (ThrownError.plain "Failed to pull sync data")
  | some u =>
    let eEnts := if includeType req.entityType EntityType.expense then
        typePage u req.lastSyncTime req.limit req.offset EntityType.expense s else []
    let eCount := if includeType req.entityType EntityType.expense then
        typeCount u req.lastSyncTime EntityType.expense s else 0
    let cEnts := if includeType req.entityType EntityType.category then
        typePage u req.lastSyncTime req.limit req.offset EntityType.category s else []
    let cCount := if includeType req.entityType EntityType.category then
        typeCount u req.lastSyncTime EntityType.category s else 0
    let entities := eEnts ++ cEnts
    let totalCount := eCount + cCount
    let conflicts := getConflicts u log
    let ms2 := if metaFails then ms else
      updateSyncMetadata now u
        { lastSyncTime := some now
          totalEntities := some totalCount
          pendingCount := some 0
          conflictCount := some conflicts.length } ms
    Except.ok (ms2,
      { entities := sortDescBy (fun r => r.lastModified) entities
        conflicts := conflicts
        lastSyncTime := now
        hasMore := decide (entities.length = req.limit)
        totalCount := totalCount })

/- ===== conflict resolution (SyncService.resolveConflict) ===== -/

/-- The request body of `resolveConflict`. -/
structure ConflictResolutionRequest where
  entityId : Nat
  entityType : EntityType
  resolution : Resolution
  mergedData : Option Nat := none
deriving DecidableEq, Repr

/-- `SyncService.resolveConflict`.  Looks up `(entityId, user)`; when no
document exists the inner `throw new Error(.Entity not found.)` is caught
by the catch block of the function and rethrown as a plain
`Failed to resolve conflict` error, before any write happens.  Otherwise
the resolved data (`local` keeps the record, `server` uses the
`_conflictData` snapshot when present, `merge` uses the caller-supplied
`mergedData` when present) is `$set` together with
`_syncStatus = synced`, `_lastModified = now`,
`_version = (entity._version || 0) + 1` and a cleared `_conflictData`,
and an audit `ConflictRecord` is appended.  The returned triple is the
outcome together with the store and audit log after the call. -/
def resolveConflict (now userId : Nat) (req : ConflictResolutionRequest) (s : Store)
    (log : List ConflictRecord) :
    Except ThrownError Bool × Store × List ConflictRecord :=
  match findOne s req.entityType req.entityId userId with
  | none => (Except.error (ThrownError.plain "Failed to resolve conflict"), s, log)
  | some entity =>
    let data : Nat :=
      match req.resolution with
      | Resolution.localRes => entity.payload
      | Resolution.serverRes => entity.conflictData.getD entity.payload
      | Resolution.mergeRes => req.mergedData.getD entity.payload
    let upd : StoredRecord → StoredRecord := fun r =>
      { r with
        payload := data
        syncStatus := SyncStatus.synced
        lastModified := now
        version := entity.version + 1
        conflictData := none }
    let s2 : Store :=
      { s with records := updateFirst (recMatches req.entityType req.entityId userId) upd s.records }
    let entry : ConflictRecord :=
      { entityId := req.entityId
        entityType := req.entityType
        localData := entity
        serverData := entity.conflictData
        resolution := req.resolution
        mergedData := req.mergedData
        timestamp := now
        user := userId }
    (Except.ok true, s2, log ++ [entry])

/- ===== forceSync (SyncController.forceSync) ===== -/

/-- `SyncController.forceSync`.  Sets `isSyncing = true`, awaits
`pullData(userId, {})` (whose success or rejection is the `pullResult`
parameter - the pull can reject for environmental reasons the pure store
model does not produce), then on success writes
`{ isSyncing: false, lastSyncTime: now, totalEntities }`; the catch block
writes `{ isSyncing: false }` and forwards the error. -/
def forceSync (now userId : Nat) (pullResult : Except ThrownError SyncResponse)
    (ms : List SyncMeta) : List SyncMeta × Except ThrownError Unit :=
  let ms1 := updateSyncMetadata now userId { isSyncing := some true } ms
  match pullResult with
  | Except.ok resp =>
    (updateSyncMetadata now userId
      { isSyncing := some false
        lastSyncTime := some now
        totalEntities := some resp.totalCount } ms1,
     Except.ok ())
  | Except.error e =>
    (updateSyncMetadata now userId { isSyncing := some false } ms1,
     Except.error e)

/- ===== helper lemmas about the store primitives ===== -/

theorem find?_updateFirst {α : Type} (p : α → Bool) (f : α → α) (l : List α) (e : α)
    (hfind : l.find? p = some e) (hpf : p (f e) = true) :
    (updateFirst p f l).find? p = some (f e) := by
  induction l with
  | nil => simp at hfind
  | cons a l ih =>
    by_cases h : p a = true
    · rw [List.find?_cons_of_pos _ h] at hfind
      injection hfind with he
      subst he
      simp [updateFirst, h, List.find?_cons_of_pos _ hpf]
    · have h' : p a = false := by simpa using h
      rw [List.find?_cons_of_neg _ (by simp [h'])] at hfind
      simp [updateFirst, h', ih hfind, List.find?_cons_of_neg, h]

theorem updateFirst_of_find?_none {α : Type} (p : α → Bool) (f : α → α) (l : List α)
    (hfind : l.find? p = none) : updateFirst p f l = l := by
  induction l with
  | nil => rfl
  | cons a l ih =>
    by_cases h : p a = true
    · rw [List.find?_cons_of_pos _ h] at hfind; cases hfind
    · have h' : p a = false := by simpa using h
      rw [List.find?_cons_of_neg _ (by simp [h'])] at hfind
      simp [updateFirst, h', ih hfind]

theorem find?_append_of_none {α : Type} (p : α → Bool) (l1 l2 : List α)
    (h : l1.find? p = none) : (l1 ++ l2).find? p = l2.find? p := by
  induction l1 with
  | nil => rfl
  | cons a l ih =>
    by_cases ha : p a = true
    · rw [List.find?_cons_of_pos _ ha] at h; cases h
    · have ha' : p a = false := by simpa using ha
      rw [List.find?_cons_of_neg _ (by simp [ha'])] at h
      simpa [List.find?_cons_of_neg _ (by simp [ha'] : ¬p a = true)] using ih h

theorem mem_insertDescBy {α : Type} (key : α → Nat) (a x : α) (l : List α) :
    x ∈ insertDescBy key a l ↔ x = a ∨ x ∈ l := by
  induction l with
  | nil => simp [insertDescBy]
  | cons b l ih =>
    by_cases h : key b < key a
    · simp [insertDescBy, h]
    · simp [insertDescBy, h, ih]
      tauto

theorem length_insertDescBy {α : Type} (key : α → Nat) (a : α) (l : List α) :
    (insertDescBy key a l).length = l.length + 1 := by
  induction l with
  | nil => rfl
  | cons b l ih =>
    by_cases h : key b < key a
    · simp [insertDescBy, h]
    · simp [insertDescBy, h, ih]

theorem mem_sortDescBy {α : Type} (key : α → Nat) (x : α) (l : List α) :
    x ∈ sortDescBy key l ↔ x ∈ l := by
  induction l with
  | nil => simp [sortDescBy]
  | cons a l ih => simp [sortDescBy, mem_insertDescBy, ih]

theorem length_sortDescBy {α : Type} (key : α → Nat) (l : List α) :
    (sortDescBy key l).length = l.length := by
  induction l with
  | nil => rfl
  | cons a l ih => simp [sortDescBy, length_insertDescBy, ih]

theorem hasConflict_eq_true_iff (ex : StoredRecord) (e : IncomingEntity) :
    hasConflict ex e = true ↔
      (ex.lastModified > e.lastModified ∧ ex.version > e.version.getD 0) := by
  simp [hasConflict]

theorem matchesPull_eq_true (u : Nat) (cursor : Option Nat) (r : StoredRecord) :
    matchesPull u cursor r = true ↔
      (r.owner = u ∧ ∀ T, cursor = some T → T < r.lastModified) := by
  cases cursor <;> simp [matchesPull]

theorem processEntity_of_findOne_some (now owner : Nat) (e : IncomingEntity) (s : Store)
    (ex : StoredRecord) (hfind : findOne s e.etype e.id owner = some ex) :
    processEntity now owner e s =
      if hasConflict ex e then
        (s, { conflict := true, entity := { base := e, conflictData := some ex } })
      else if e.isDeleted then
        (handleDelete now e.etype e.id owner s,
         { conflict := false, entity := { base := e, conflictData := none } })
      else
        (handleUpdate now e.etype e.id owner (entityData e) e.version s,
         { conflict := false, entity := { base := e, conflictData := none } }) := by
  unfold processEntity
  rw [hfind]

theorem processEntity_of_findOne_none (now owner : Nat) (e : IncomingEntity) (s : Store)
    (hfind : findOne s e.etype e.id owner = none) :
    processEntity now owner e s =
      if e.isDeleted then
        (handleDelete now e.etype e.id owner s,
         { conflict := false, entity := { base := e, conflictData := none } })
      else
        (handleCreate now e.etype (entityData e) owner e.clientId s,
         { conflict := false, entity := { base := e, conflictData := none } }) := by
  unfold processEntity
  rw [hfind]

/-- The record-matching predicate only inspects `etype`, `id` and `owner`,
so the `$set` updates applied by the handlers keep a document matching. -/
theorem recMatches_update (t : EntityType) (id owner : Nat) (r r2 : StoredRecord)
    (het : r2.etype = r.etype) (hid : r2.id = r.id) (how : r2.owner = r.owner) :
    recMatches t id owner r2 = recMatches t id owner r := by
  simp [recMatches, het, hid, how]

/- ===== claim C1 ===== -/

/-- C1: for a pushed entity whose `(id, owner)` matches an existing record,
`processEntity` reports a conflict iff `existing.lastModified >
incoming.lastModified` and `existing.version > incoming.version` both
hold; and when a conflict is reported the store is left unmutated and the
incoming entity is returned with `_conflictData` set to the existing
record. -/
theorem sync_push_conflict_iff (now owner : Nat) (e : IncomingEntity) (s : Store)
    (ex : StoredRecord) (v : Nat)
    (hfind : findOne s e.etype e.id owner = some ex) (hv : e.version = some v) :
    ((processEntity now owner e s).2.conflict = true ↔
      (ex.lastModified > e.lastModified ∧ ex.version > v))
    ∧ ((processEntity now owner e s).2.conflict = true →
        (processEntity now owner e s).1 = s ∧
        (processEntity now owner e s).2.entity =
          { base := e, conflictData := some ex }) := by
  rw [processEntity_of_findOne_some now owner e s ex hfind]
  by_cases hc : hasConflict ex e = true
  · have hcond := (hasConflict_eq_true_iff ex e).mp hc
    rw [hv] at hcond
    rw [if_pos hc]
    exact ⟨iff_of_true rfl hcond, fun _ => ⟨rfl, rfl⟩⟩
  · have hcond : ¬(ex.lastModified > e.lastModified ∧ ex.version > v) := by
      intro h
      exact hc ((hasConflict_eq_true_iff ex e).mpr (by rw [hv]; exact h))
    rw [if_neg hc]
    cases hd : e.isDeleted
    · rw [if_neg (by simp [hd])]
      exact ⟨iff_of_false (by simp) hcond, fun h => by simp at h⟩
    · rw [if_pos rfl]
      exact ⟨iff_of_false (by simp) hcond, fun h => by simp at h⟩

/-- Concrete conflicting scenario for the C1 witness. -/
def c1rec : StoredRecord :=
  { id := 1, owner := 2, etype := EntityType.expense, payload := 11, version := 5,
    lastModified := 10, syncStatus := SyncStatus.synced, isDeleted := false,
    clientId := none, conflictData := none }

/-- Incoming entity that is both version- and time-behind `c1rec`. -/
def c1inc : IncomingEntity :=
  { etype := EntityType.expense, id := 1, clientId := none, version := some 3,
    lastModified := 4, isDeleted := false, payload := 99 }

/-- Store holding only `c1rec`. -/
def c1store : Store := { records := [c1rec], nextId := 50 }

/-- Witness instantiating C1 on the concrete conflicting push. -/
theorem sync_push_conflict_iff_witness :
    (findOne c1store c1inc.etype c1inc.id 2 = some c1rec ∧ c1inc.version = some 3) ∧
    (((processEntity 20 2 c1inc c1store).2.conflict = true ↔
        (c1rec.lastModified > c1inc.lastModified ∧ c1rec.version > 3))
     ∧ ((processEntity 20 2 c1inc c1store).2.conflict = true →
         (processEntity 20 2 c1inc c1store).1 = c1store ∧
         (processEntity 20 2 c1inc c1store).2.entity =
           { base := c1inc, conflictData := some c1rec })) :=
  ⟨⟨by decide, by decide⟩,
   sync_push_conflict_iff 20 2 c1inc c1store c1rec 3 (by decide) (by decide)⟩

/-- Shared helper: the update branch of `processEntity`.  When an existing
record is found, the entity is not deleted and no conflict is detected,
the stored record becomes the incoming payload with
`version = (incoming.version || 0) + 1`, `lastModified = now` and
`syncStatus = synced`. -/
theorem processEntity_applies_update (now owner : Nat) (e : IncomingEntity) (s : Store)
    (ex : StoredRecord)
    (hfind : findOne s e.etype e.id owner = some ex)
    (hnc : hasConflict ex e = false)
    (hdel : e.isDeleted = false) :
    (processEntity now owner e s).2.conflict = false ∧
    findOne (processEntity now owner e s).1 e.etype e.id owner =
      some { ex with
             payload := e.payload
             isDeleted := e.isDeleted
             syncStatus := SyncStatus.synced
             lastModified := now
             version := e.version.getD 0 + 1 } := by
  rw [processEntity_of_findOne_some now owner e s ex hfind]
  rw [if_neg (by simp [hnc]), if_neg (by simp [hdel])]
  refine ⟨rfl, ?_⟩
  unfold findOne handleUpdate
  have hp : recMatches e.etype e.id owner ex = true := List.find?_some hfind
  refine find?_updateFirst _ _ _ _ hfind ?_
  simpa [recMatches] using hp

/- ===== claim C2 ===== -/

/-- Existing record of the C2 scenario: version 3, `_lastModified` 5. -/
def c2rec : StoredRecord :=
  { id := 1, owner := 1, etype := EntityType.expense, payload := 0, version := 3,
    lastModified := 5, syncStatus := SyncStatus.synced, isDeleted := false,
    clientId := none, conflictData := none }

/-- Incoming entity of the C2 scenario: version 2, newer timestamp 10. -/
def c2inc : IncomingEntity :=
  { etype := EntityType.expense, id := 1, clientId := none, version := some 2,
    lastModified := 10, isDeleted := false, payload := 7 }

/-- Store holding only `c2rec`. -/
def c2store : Store := { records := [c2rec], nextId := 50 }

/-- C2 counterexample: with existing version 3 and incoming version 2
(newer timestamp, so no conflict), the applied update stores version
`incoming.version + 1 = 3`, not `existing.version + 1 = 4` as the claim
states. -/
theorem sync_update_version_counterexample :
    (processEntity 11 1 c2inc c2store).2.conflict = false ∧
    ((findOne (processEntity 11 1 c2inc c2store).1 EntityType.expense 1 1).map
      (fun r => r.version)) = some 3 ∧
    ((findOne (processEntity 11 1 c2inc c2store).1 EntityType.expense 1 1).map
      (fun r => r.version)) ≠ some 4 := by
  refine ⟨by decide, by decide, by decide⟩

/-- C2 amended: when an existing record is found, the incoming entity is
not deleted and no conflict is detected, the applied update stores the
incoming payload with `version = incoming.version + 1` (0 when absent) -
not `existing.version + 1` - and `lastModified` set to the server time. -/
theorem sync_update_version_incoming (now owner : Nat) (e : IncomingEntity) (s : Store)
    (ex : StoredRecord)
    (hfind : findOne s e.etype e.id owner = some ex)
    (hnc : hasConflict ex e = false)
    (hdel : e.isDeleted = false) :
    (processEntity now owner e s).2.conflict = false ∧
    findOne (processEntity now owner e s).1 e.etype e.id owner =
      some { ex with
             payload := e.payload
             isDeleted := e.isDeleted
             syncStatus := SyncStatus.synced
             lastModified := now
             version := e.version.getD 0 + 1 } :=
  processEntity_applies_update now owner e s ex hfind hnc hdel

/-- Witness instantiating the amended C2 on the concrete scenario
(existing version 3, incoming version 2, resulting version 3). -/
theorem sync_update_version_incoming_witness :
    (findOne c2store c2inc.etype c2inc.id 1 = some c2rec ∧
     hasConflict c2rec c2inc = false ∧ c2inc.isDeleted = false) ∧
    ((processEntity 11 1 c2inc c2store).2.conflict = false ∧
     findOne (processEntity 11 1 c2inc c2store).1 c2inc.etype c2inc.id 1 =
       some { c2rec with
              payload := c2inc.payload
              isDeleted := c2inc.isDeleted
              syncStatus := SyncStatus.synced
              lastModified := 11
              version := c2inc.version.getD 0 + 1 }) :=
  ⟨⟨by decide, by decide, by decide⟩,
   sync_update_version_incoming 11 1 c2inc c2store c2rec (by decide) (by decide) (by decide)⟩

/- ===== claim C3 ===== -/

/-- C3: re-pushing an entity carrying exactly the id of the stored record,
version and `lastModified` (and not deleted) does not trigger the
conflict branch - the strict comparisons fail on equal values - and
instead applies the update again, storing `version + 1`; hence push is
not idempotent on exact resubmission (the store changes). -/
theorem sync_repush_not_idempotent (now owner : Nat) (e : IncomingEntity) (s : Store)
    (ex : StoredRecord)
    (hfind : findOne s e.etype e.id owner = some ex)
    (hv : e.version = some ex.version)
    (ht : e.lastModified = ex.lastModified)
    (hdel : e.isDeleted = false) :
    (processEntity now owner e s).2.conflict = false ∧
    findOne (processEntity now owner e s).1 e.etype e.id owner =
      some { ex with
             payload := e.payload
             isDeleted := e.isDeleted
             syncStatus := SyncStatus.synced
             lastModified := now
             version := ex.version + 1 } ∧
    (processEntity now owner e s).1 ≠ s := by
  have hnc : hasConflict ex e = false := by
    simp [hasConflict, ht]
  have hmain := processEntity_applies_update now owner e s ex hfind hnc hdel
  have hgetD : e.version.getD 0 = ex.version := by rw [hv]; rfl
  rw [hgetD] at hmain
  refine ⟨hmain.1, hmain.2, ?_⟩
  intro heq
  have hfound := hmain.2
  rw [heq, hfind] at hfound
  have h2 := Option.some.inj hfound
  have h3 := congrArg StoredRecord.version h2
  simp at h3

/- ===== claim C3 witness ===== -/

/-- Stored record of the C3 witness scenario. -/
def c3rec : StoredRecord :=
  { id := 4, owner := 9, etype := EntityType.category, payload := 5, version := 2,
    lastModified := 30, syncStatus := SyncStatus.synced, isDeleted := false,
    clientId := some 8, conflictData := none }

/-- Exact resubmission of `c3rec`: same id, version and `lastModified`. -/
def c3inc : IncomingEntity :=
  { etype := EntityType.category, id := 4, clientId := some 8, version := some 2,
    lastModified := 30, isDeleted := false, payload := 5 }

/-- Store holding only `c3rec`. -/
def c3store : Store := { records := [c3rec], nextId := 60 }

/-- Witness instantiating C3 on an exact resubmission. -/
theorem sync_repush_not_idempotent_witness :
    (findOne c3store c3inc.etype c3inc.id 9 = some c3rec ∧
     c3inc.version = some c3rec.version ∧ c3inc.lastModified = c3rec.lastModified ∧
     c3inc.isDeleted = false) ∧
    ((processEntity 31 9 c3inc c3store).2.conflict = false ∧
     findOne (processEntity 31 9 c3inc c3store).1 c3inc.etype c3inc.id 9 =
       some { c3rec with
              payload := c3inc.payload
              isDeleted := c3inc.isDeleted
              syncStatus := SyncStatus.synced
              lastModified := 31
              version := c3rec.version + 1 } ∧
     (processEntity 31 9 c3inc c3store).1 ≠ c3store) :=
  ⟨⟨by decide, by decide, by decide, by decide⟩,
   sync_repush_not_idempotent 31 9 c3inc c3store c3rec
     (by decide) (by decide) (by decide) (by decide)⟩

/- ===== claim C4 ===== -/

/-- C4: for a pushed entity with `isDeleted = true` and no conflict, the
soft-delete sets exactly `isDeleted = true`, `syncStatus = synced` and
`lastModified = now` on the stored record - version, payload, clientId
and conflictData are untouched (the resulting record is the old one with
only those three fields changed); and when no record exists for the
`(id, owner)`, the call is a complete no-op: the store is unchanged, no
record is created, and no error is raised (the result is a normal
non-conflict outcome). -/
theorem sync_delete_frame_noop (now owner : Nat) (e : IncomingEntity) (s : Store)
    (hdel : e.isDeleted = true) :
    (∀ ex, findOne s e.etype e.id owner = some ex → hasConflict ex e = false →
      (processEntity now owner e s).2.conflict = false ∧
      findOne (processEntity now owner e s).1 e.etype e.id owner =
        some { ex with
               isDeleted := true
               syncStatus := SyncStatus.synced
               lastModified := now })
    ∧ (findOne s e.etype e.id owner = none →
        processEntity now owner e s =
          (s, { conflict := false, entity := { base := e, conflictData := none } })) := by
  constructor
  · intro ex hfind hnc
    rw [processEntity_of_findOne_some now owner e s ex hfind]
    rw [if_neg (by simp [hnc]), if_pos hdel]
    refine ⟨rfl, ?_⟩
    unfold findOne handleDelete
    have hp : recMatches e.etype e.id owner ex = true := List.find?_some hfind
    refine find?_updateFirst _ _ _ _ hfind ?_
    simpa [recMatches] using hp
  · intro hfind
    rw [processEntity_of_findOne_none now owner e s hfind, if_pos hdel]
    simp only [handleDelete]
    rw [updateFirst_of_find?_none _ _ _ hfind]

/-- Stored record of the C4 witness scenario. -/
def c4rec : StoredRecord :=
  { id := 3, owner := 7, etype := EntityType.expense, payload := 44, version := 6,
    lastModified := 12, syncStatus := SyncStatus.pending, isDeleted := false,
    clientId := some 2, conflictData := some 13 }

/-- Tombstone push for `c4rec` (same id, not version- and time-behind). -/
def c4inc : IncomingEntity :=
  { etype := EntityType.expense, id := 3, clientId := some 2, version := some 6,
    lastModified := 12, isDeleted := true, payload := 44 }

/-- Store holding only `c4rec`; id 99 is absent from it. -/
def c4store : Store := { records := [c4rec], nextId := 70 }

/-- Tombstone push for the never-created id 99. -/
def c4incMissing : IncomingEntity :=
  { etype := EntityType.expense, id := 99, clientId := none, version := some 1,
    lastModified := 15, isDeleted := true, payload := 0 }

/-- Witness instantiating C4 both on an existing record (frame check: only
the three delete fields change) and on a never-created id (no-op). -/
theorem sync_delete_frame_noop_witness :
    (c4inc.isDeleted = true ∧ c4incMissing.isDeleted = true) ∧
    ((processEntity 40 7 c4inc c4store).2.conflict = false ∧
     findOne (processEntity 40 7 c4inc c4store).1 c4inc.etype c4inc.id 7 =
       some { c4rec with
              isDeleted := true
              syncStatus := SyncStatus.synced
              lastModified := 40 }) ∧
    processEntity 40 7 c4incMissing c4store =
      (c4store, { conflict := false,
                  entity := { base := c4incMissing, conflictData := none } }) :=
  ⟨⟨by decide, by decide⟩,
   (sync_delete_frame_noop 40 7 c4inc c4store (by decide)).1 c4rec (by decide) (by decide),
   (sync_delete_frame_noop 40 7 c4incMissing c4store (by decide)).2 (by decide)⟩

/- ===== claim C5 ===== -/

/-- Brand-new entity pushed with client-supplied id 7 and clientId 9. -/
def c5inc : IncomingEntity :=
  { etype := EntityType.expense, id := 7, clientId := some 9, version := none,
    lastModified := 3, isDeleted := false, payload := 42 }

/-- Empty store whose next generated id is 100. -/
def c5store : Store := { records := [], nextId := 100 }

/-- C5 counterexample: pushing a brand-new entity with client id 7 creates
a record under the fresh server-generated id 100; no stored record has
the client-supplied id 7, refuting "the client-supplied id ... preserved
on the created record". -/
theorem sync_create_id_counterexample :
    findOne (processEntity 4 1 c5inc c5store).1 EntityType.expense 7 1 = none ∧
    (processEntity 4 1 c5inc c5store).1.records.map (fun r => r.id) = [100] ∧
    (processEntity 4 1 c5inc c5store).1.records.map (fun r => r.clientId) = [some 9] := by
  refine ⟨by decide, by decide, by decide⟩

/-- C5 amended: when no record matches `(id, owner)` and the entity is not
deleted, push appends a record with `version = 1`, `owner` the calling
user, `lastModified = now`, `syncStatus = synced` and the client-supplied
`clientId` preserved - but under the fresh server-assigned id
`s.nextId`: the client-supplied `_id` is stripped by the destructuring
and is not preserved on the created record. -/
theorem sync_create_fresh_id (now owner : Nat) (e : IncomingEntity) (s : Store)
    (hfind : findOne s e.etype e.id owner = none) (hdel : e.isDeleted = false) :
    processEntity now owner e s =
      ({ records := s.records ++ [{
           id := s.nextId
           owner := owner
           etype := e.etype
           payload := e.payload
           version := 1
           lastModified := now
           syncStatus := SyncStatus.synced
           isDeleted := e.isDeleted
           clientId := e.clientId
           conflictData := none }]
         nextId := s.nextId + 1 },
       { conflict := false, entity := { base := e, conflictData := none } }) := by
  rw [processEntity_of_findOne_none now owner e s hfind, if_neg (by simp [hdel])]
  rfl

/-- Witness instantiating the amended C5 on the concrete brand-new push. -/
theorem sync_create_fresh_id_witness :
    (findOne c5store c5inc.etype c5inc.id 1 = none ∧ c5inc.isDeleted = false) ∧
    processEntity 4 1 c5inc c5store =
      ({ records := c5store.records ++ [{
           id := c5store.nextId
           owner := 1
           etype := c5inc.etype
           payload := c5inc.payload
           version := 1
           lastModified := 4
           syncStatus := SyncStatus.synced
           isDeleted := c5inc.isDeleted
           clientId := c5inc.clientId
           conflictData := none }]
         nextId := c5store.nextId + 1 },
       { conflict := false, entity := { base := c5inc, conflictData := none } }) :=
  ⟨⟨by decide, by decide⟩, sync_create_fresh_id 4 1 c5inc c5store (by decide) (by decide)⟩

/- ===== claim C6 ===== -/

theorem take_all_of_length_le {α : Type} (l : List α) (n : Nat) (h : l.length ≤ n) :
    l.take n = l := by
  induction l generalizing n with
  | nil => simp
  | cons a l ih =>
    cases n with
    | zero => simp at h
    | succ n => simp [ih n (by simpa using h)]

/-- With `offset = 0` and the full result of a type fitting in `limit`, the
page of that type is exactly the set of its documents matching the pull
query. -/
theorem mem_typePage_of_fits (u : Nat) (cursor : Option Nat) (limit : Nat)
    (t : EntityType) (s : Store) (h : typeCount u cursor t s ≤ limit) (r : StoredRecord) :
    r ∈ typePage u cursor limit 0 t s ↔
      (r ∈ s.records ∧ r.etype = t ∧ matchesPull u cursor r = true) := by
  unfold typePage
  rw [List.drop_zero, take_all_of_length_le _ _ (by rw [length_sortDescBy]; exact h)]
  rw [mem_sortDescBy]
  unfold typeFilter
  rw [List.mem_filter]
  simp only [Bool.and_eq_true, decide_eq_true_eq, and_assoc]

/-- C6: pull returns exactly the records of the owner whose `lastModified` is
strictly greater than the cursor (all of them when no cursor is given),
within the queried entity types - with no condition whatsoever on
`isDeleted`, so soft-deleted records are returned like any others.
Stated for a page window large enough to hold the full result of each type
(`offset = 0`, per-type counts at most `limit`), where "within the page
window" poses no truncation. -/
theorem sync_pull_membership (now u : Nat) (req : SyncRequest) (s : Store)
    (log : List ConflictRecord) (ms : List SyncMeta) (metaFails : Bool)
    (hoff : req.offset = 0)
    (hfitE : typeCount u req.lastSyncTime EntityType.expense s ≤ req.limit)
    (hfitC : typeCount u req.lastSyncTime EntityType.category s ≤ req.limit) :
    ∃ ms2 resp, pullData now (some u) req s log ms metaFails = Except.ok (ms2, resp) ∧
      ∀ r : StoredRecord, r ∈ resp.entities ↔
        (r ∈ s.records ∧ includeType req.entityType r.etype = true ∧ r.owner = u ∧
         ∀ T, req.lastSyncTime = some T → T < r.lastModified) := by
  refine ⟨_, _, rfl, ?_⟩
  intro r
  rw [hoff]
  simp only [mem_sortDescBy, List.mem_append]
  cases hET : req.entityType with
  | none =>
    simp only [includeType, if_true]
    rw [mem_typePage_of_fits u req.lastSyncTime req.limit EntityType.expense s hfitE r,
        mem_typePage_of_fits u req.lastSyncTime req.limit EntityType.category s hfitC r]
    rw [matchesPull_eq_true]
    cases h : r.etype <;> simp [h]
  | some t2 =>
    cases t2 with
    | expense =>
      simp only [includeType, decide_eq_true_eq, if_pos rfl, if_neg, List.not_mem_nil,
        or_false]
      rw [if_pos (by simp [includeType]), if_neg (by simp [includeType])]
      rw [mem_typePage_of_fits u req.lastSyncTime req.limit EntityType.expense s hfitE r]
      rw [matchesPull_eq_true]
      cases h : r.etype <;> simp [h]
    | category =>
      rw [if_neg (by simp [includeType]), if_pos (by simp [includeType])]
      simp only [List.not_mem_nil, false_or]
      rw [mem_typePage_of_fits u req.lastSyncTime req.limit EntityType.category s hfitC r]
      rw [matchesPull_eq_true]
      simp only [includeType, decide_eq_true_eq]
      cases h : r.etype <;> simp [h]

/-- Soft-deleted expense of user 5, changed after the cursor. -/
def c6del : StoredRecord :=
  { id := 1, owner := 5, etype := EntityType.expense, payload := 1, version := 2,
    lastModified := 10, syncStatus := SyncStatus.synced, isDeleted := true,
    clientId := none, conflictData := none }

/-- Category of user 5 last changed before the cursor. -/
def c6old : StoredRecord :=
  { id := 2, owner := 5, etype := EntityType.category, payload := 2, version := 1,
    lastModified := 3, syncStatus := SyncStatus.synced, isDeleted := false,
    clientId := none, conflictData := none }

/-- Recently changed expense of a different user. -/
def c6other : StoredRecord :=
  { id := 3, owner := 6, etype := EntityType.expense, payload := 3, version := 1,
    lastModified := 11, syncStatus := SyncStatus.synced, isDeleted := false,
    clientId := none, conflictData := none }

/-- Store for the C6 witness. -/
def c6store : Store := { records := [c6del, c6old, c6other], nextId := 80 }

/-- Pull request with cursor 5 and default limit and offset. -/
def c6req : SyncRequest := { lastSyncTime := some 5 }

/-- Witness instantiating C6: with cursor 5, user 5 receives exactly the
soft-deleted expense changed at 10 - not the pre-cursor category and not
the record of the other user. -/
theorem sync_pull_membership_witness :
    (c6req.offset = 0 ∧
     typeCount 5 c6req.lastSyncTime EntityType.expense c6store ≤ c6req.limit ∧
     typeCount 5 c6req.lastSyncTime EntityType.category c6store ≤ c6req.limit) ∧
    (∃ ms2 resp, pullData 20 (some 5) c6req c6store [] [] false = Except.ok (ms2, resp) ∧
      ∀ r : StoredRecord, r ∈ resp.entities ↔
        (r ∈ c6store.records ∧ includeType c6req.entityType r.etype = true ∧
         r.owner = 5 ∧ ∀ T, c6req.lastSyncTime = some T → T < r.lastModified)) :=
  ⟨⟨by decide, by decide, by decide⟩,
   sync_pull_membership 20 5 c6req c6store [] [] false (by decide) (by decide) (by decide)⟩

/- ===== claim C7 ===== -/

/-- Expense of user 1 for the C7 scenario. -/
def c7exp : StoredRecord :=
  { id := 1, owner := 1, etype := EntityType.expense, payload := 1, version := 1,
    lastModified := 10, syncStatus := SyncStatus.synced, isDeleted := false,
    clientId := none, conflictData := none }

/-- Category of user 1 for the C7 scenario. -/
def c7cat : StoredRecord :=
  { id := 2, owner := 1, etype := EntityType.category, payload := 2, version := 1,
    lastModified := 8, syncStatus := SyncStatus.synced, isDeleted := false,
    clientId := none, conflictData := none }

/-- Store for the C7 scenario: one expense and one category. -/
def c7store : Store := { records := [c7exp, c7cat], nextId := 30 }

/-- Unfiltered pull request with `limit = 2`. -/
def c7req : SyncRequest := { limit := 2 }

/-- C7 counterexample: querying both types with `limit = 2` over one
expense and one category yields `hasMore = true` (the concatenated list
has length 2 = limit) although the page of the last queried type
(category) has length 1, not `limit` - refuting "hasMore is true only if
the page returned for the last queried entity type was exactly limit
entities long". -/
theorem sync_pull_hasMore_counterexample :
    ∃ ms2 resp, pullData 20 (some 1) c7req c7store [] [] false = Except.ok (ms2, resp) ∧
      resp.hasMore = true ∧
      (typePage 1 none c7req.limit 0 EntityType.category c7store).length = 1 ∧
      c7req.limit = 2 :=
  ⟨_, _, rfl, by decide, by decide, by decide⟩

/-- C7 amended: `hasMore` is true iff the concatenation of the queried
pages of the queried types - not the page of the last type alone - is exactly `limit` long;
with both types queried this misreports pagination in both directions,
so callers cannot rely on it. -/
theorem sync_pull_hasMore_concat (now u : Nat) (req : SyncRequest) (s : Store)
    (log : List ConflictRecord) (ms : List SyncMeta) (metaFails : Bool)
    (hnone : req.entityType = none) :
    ∃ ms2 resp, pullData now (some u) req s log ms metaFails = Except.ok (ms2, resp) ∧
      (resp.hasMore = true ↔
        (typePage u req.lastSyncTime req.limit req.offset EntityType.expense s).length
        + (typePage u req.lastSyncTime req.limit req.offset EntityType.category s).length
        = req.limit) := by
  refine ⟨_, _, rfl, ?_⟩
  simp [hnone, includeType, List.length_append]

/-- Witness instantiating the amended C7 on the concrete two-type store:
pages of length 1 and 1 sum to the limit 2, so `hasMore` is true. -/
theorem sync_pull_hasMore_concat_witness :
    c7req.entityType = none ∧
    (∃ ms2 resp, pullData 20 (some 1) c7req c7store [] [] false = Except.ok (ms2, resp) ∧
      (resp.hasMore = true ↔
        (typePage 1 c7req.lastSyncTime c7req.limit c7req.offset EntityType.expense c7store).length
        + (typePage 1 c7req.lastSyncTime c7req.limit c7req.offset EntityType.category c7store).length
        = c7req.limit)) :=
  ⟨by decide, sync_pull_hasMore_concat 20 1 c7req c7store [] [] false (by decide)⟩

/- ===== claim C8 ===== -/

/-- C8 amended: when no record exists for `(entityId, owner)`,
`resolveConflict` fails with the plain rethrown error
`Failed to resolve conflict` - not a `NotFoundError` of the `AppError`
hierarchy - and the store and the conflict audit log are left unchanged:
no record is updated and no audit entry is appended. -/
theorem sync_resolve_missing_entity (now u : Nat) (req : ConflictResolutionRequest)
    (s : Store) (log : List ConflictRecord)
    (h : findOne s req.entityType req.entityId u = none) :
    resolveConflict now u req s log =
      (Except.error (ThrownError.plain "Failed to resolve conflict"), s, log) ∧
    isNotFoundError (ThrownError.plain "Failed to resolve conflict") = false := by
  refine ⟨?_, rfl⟩
  unfold resolveConflict
  rw [h]

/-- Resolve request targeting the never-created id 3. -/
def c8req : ConflictResolutionRequest :=
  { entityId := 3, entityType := EntityType.expense, resolution := Resolution.serverRes }

/-- Empty store for the C8 counterexample. -/
def c8store : Store := { records := [], nextId := 0 }

/-- C8 counterexample: resolving a conflict for an id with no record
returns the plain `Failed to resolve conflict` error - which is not a
`NotFoundError` and which the error handler of the app answers with HTTP 500,
not 404 - while store and audit log stay unchanged. -/
theorem sync_resolve_notfound_counterexample :
    resolveConflict 5 1 c8req c8store [] =
      (Except.error (ThrownError.plain "Failed to resolve conflict"), c8store, []) ∧
    isNotFoundError (ThrownError.plain "Failed to resolve conflict") = false ∧
    errorHandlerStatus (ThrownError.plain "Failed to resolve conflict") = 500 := by
  refine ⟨rfl, by decide, rfl⟩

/-- Category record of user 2 unrelated to the C8 witness request. -/
def c8wrec : StoredRecord :=
  { id := 10, owner := 2, etype := EntityType.category, payload := 4, version := 2,
    lastModified := 6, syncStatus := SyncStatus.synced, isDeleted := false,
    clientId := none, conflictData := some 3 }

/-- Store for the C8 witness. -/
def c8wstore : Store := { records := [c8wrec], nextId := 20 }

/-- Merge-resolve request for the missing id 11. -/
def c8wreq : ConflictResolutionRequest :=
  { entityId := 11, entityType := EntityType.category, resolution := Resolution.mergeRes,
    mergedData := some 5 }

/-- Witness instantiating the amended C8 on a store that does contain a
record, just not the requested one. -/
theorem sync_resolve_missing_entity_witness :
    findOne c8wstore c8wreq.entityType c8wreq.entityId 2 = none ∧
    (resolveConflict 9 2 c8wreq c8wstore [] =
       (Except.error (ThrownError.plain "Failed to resolve conflict"), c8wstore, []) ∧
     isNotFoundError (ThrownError.plain "Failed to resolve conflict") = false) :=
  ⟨by decide, sync_resolve_missing_entity 9 2 c8wreq c8wstore [] (by decide)⟩

/- ===== claim C9 ===== -/

/-- Shared helper: an upsert whose update object carries `isSyncing = b`
leaves the metadata document of the user existing with `isSyncing = b`, both
when a document already existed and when the upsert inserts one. -/
theorem findMeta_updateSyncMetadata_isSyncing (now u : Nat) (upd : MetaUpdates)
    (ms : List SyncMeta) (b : Bool) (hb : upd.isSyncing = some b) :
    ∃ m, findMeta (updateSyncMetadata now u upd ms) u = some m ∧ m.isSyncing = b := by
  unfold updateSyncMetadata findMeta
  cases hf : ms.find? (fun m => decide (m.user = u)) with
  | some m0 =>
    refine ⟨applyMetaUpdates upd m0, ?_, by simp [applyMetaUpdates, hb]⟩
    refine find?_updateFirst _ _ _ _ hf ?_
    have hm := List.find?_some hf
    simpa [applyMetaUpdates] using hm
  | none =>
    refine ⟨insertMeta now u upd, ?_, by simp [insertMeta, hb]⟩
    rw [find?_append_of_none _ _ _ hf]
    simp [List.find?, insertMeta]

/-- C9: the `forceSync` controller first upserts the metadata of the owner
with `isSyncing = true`; and whatever the awaited pull does - succeed or
throw - the metadata store it leaves behind has the document of the owner with
`isSyncing = false`: the success path writes it together with
`lastSyncTime` and `totalEntities`, the catch path writes it alone, so
the flag is never left stuck at true. -/
theorem sync_forceSync_isSyncing (now u : Nat) (pr : Except ThrownError SyncResponse)
    (ms : List SyncMeta) :
    (∃ m, findMeta (updateSyncMetadata now u { isSyncing := some true } ms) u = some m ∧
       m.isSyncing = true)
    ∧ (∃ m, findMeta (forceSync now u pr ms).1 u = some m ∧ m.isSyncing = false) := by
  refine ⟨findMeta_updateSyncMetadata_isSyncing now u _ ms true rfl, ?_⟩
  unfold forceSync
  cases pr with
  | ok resp => exact findMeta_updateSyncMetadata_isSyncing now u _ _ false rfl
  | error e => exact findMeta_updateSyncMetadata_isSyncing now u _ _ false rfl

/- ===== claim C10 ===== -/

/-- C10: a failing sync-metadata refresh does not fail the pull.  With the
refresh failing (`metaFails = true`), `pullData` still returns `ok` with
the very same response - entities, conflicts, serverTime, hasMore,
totalCount - as when the refresh succeeds, but leaves the metadata store
untouched, so a successful pull does not guarantee that `lastSyncTime`,
`totalEntities`, `pendingCount` and `conflictCount` were updated. -/
theorem sync_pull_meta_failure_swallowed (now u : Nat) (req : SyncRequest) (s : Store)
    (log : List ConflictRecord) (ms : List SyncMeta) :
    ∃ ms2 resp,
      pullData now (some u) req s log ms false = Except.ok (ms2, resp) ∧
      pullData now (some u) req s log ms true = Except.ok (ms, resp) :=
  ⟨_, _, rfl, rfl⟩

end ExpensesWallet
